import Mathlib

/-!
Verification development for the Digital Evidence Archive audit subsystem.

The audit query/export pipeline (query initiator, result poller/formatter,
authorization guard, audit-job store) is embedded shallowly below.  The
resource handlers and the audit service itself are not part of the checked
sources; where a definition models such a missing piece its doc comment
says so and names the spec section it follows, constrained by the
repository's own integration and e2e tests.  The Lambda boundary wrapper
(`createDeaHandler`) and the case service (`deleteCase`) are embedded
directly from their sources.
-/

namespace Dea

/-- Audit types, from the repository schema (`AuditType` in dea-schema). -/
inductive AuditType where
  | CASE
  | CASE_FILE
  | SYSTEM
deriving DecidableEq, Repr

/-- CloudWatch Logs Insights query status values (spec section 4.2). -/
inductive QueryStatus where
  | Scheduled
  | Running
  | Complete
  | Failed
  | Cancelled
  | Timeout
deriving DecidableEq, Repr

/-- Printable name of a query status. -/
def statusName : QueryStatus → String
  | .Scheduled => "Scheduled"
  | .Running => "Running"
  | .Complete => "Complete"
  | .Failed => "Failed"
  | .Cancelled => "Cancelled"
  | .Timeout => "Timeout"

/-- Error taxonomy of the application (spec section 7).  The message of
`queryStartError` is pinned by the integration tests
(`start-system-audit.integration.test.ts`, `audit-test-support.ts`). -/
inductive DeaError where
  | notFoundError
  | validationError (message : String)
  | queryStartError (message : String)
  | queryExecutionError (status : QueryStatus)
deriving DecidableEq, Repr

/-- The `name` property of the thrown error, used by the boundary wrapper
to select an exception handler. -/
def errorName : DeaError → String
  | .notFoundError => "NotFoundError"
  | .validationError _ => "ValidationError"
  | .queryStartError _ => "QueryStartError"
  | .queryExecutionError _ => "QueryExecutionError"

/-- The `message` property of the thrown error. -/
def errorMessage : DeaError → String
  | .notFoundError => "Resource Not Found"
  | .validationError m => m
  | .queryStartError m => m
  | .queryExecutionError s => "Query failed with status " ++ statusName s

/-- Crockford base32 alphabet used by the `ulid` library (no I, L, O, U). -/
def crockford : List Char :=
  ['0', '1', '2', '3', '4', '5', '6', '7', '8', '9',
   'A', 'B', 'C', 'D', 'E', 'F', 'G', 'H', 'J', 'K',
   'M', 'N', 'P', 'Q', 'R', 'S', 'T', 'V', 'W', 'X', 'Y', 'Z']

/-- Encode five bits as one Crockford base32 character. -/
def encodeChar (n : Nat) : Char := crockford.getD (n % 32) '0'

/-- Index of a character in the Crockford alphabet. -/
def decodeChar (c : Char) : Nat := crockford.indexOf c

/-- Big-endian fixed-width base32 rendering of a natural number: `w`
characters, least significant character last. -/
def ulidChars : Nat → Nat → List Char
  | 0, _ => []
  | w + 1, n => ulidChars w (n / 32) ++ [encodeChar n]

/-- Modelled from the spec: the `ulid()` generator (the `ulid` npm package
used by `audit-test-support.ts` and the AuditJob schema) is not under the
checked sources; per spec section 8 it yields a fixed-length sortable
26-character identifier.  We render the generator state as the 26-character
Crockford base32 encoding of a natural number. -/
def ulidString (n : Nat) : String := String.mk (ulidChars 26 n)

/-- Decode a base32 character list back to a natural number. -/
def decodeChars (cs : List Char) : Nat := cs.foldl (fun acc c => acc * 32 + decodeChar c) 0

/-- Syntactic ULID validity as checked by `joiUlid`: exactly 26 characters,
all drawn from the Crockford base32 alphabet. -/
def isValidUlid (s : String) : Bool :=
  s.toList.length == 26 && s.toList.all (fun c => crockford.contains c)

/-- Characters that force a CSV field to be quoted: the field delimiter,
the quote character and the record separator. -/
def isCsvSpecial (c : Char) : Bool := c == ',' || c == '"' || c == '\n'

/-- Whether a raw field value needs quoting under standard CSV escaping. -/
def needsQuoting (cs : List Char) : Bool := cs.any isCsvSpecial

/-- Double every quote character, the escaping step of standard CSV quoting. -/
def doubleQuotes : List Char → List Char
  | [] => []
  | c :: rest => if c == '"' then '"' :: '"' :: doubleQuotes rest else c :: doubleQuotes rest

/-- Inverse of `doubleQuotes`: collapse each doubled quote. -/
def undoubleQuotes : List Char → List Char
  | [] => []
  | [c] => [c]
  | c :: c2 :: rest =>
    if c == '"' && c2 == '"' then '"' :: undoubleQuotes rest
    else c :: undoubleQuotes (c2 :: rest)

/-- Standard CSV escaping of one field: quote and double internal quotes
when the value contains a special character, otherwise leave it alone. -/
def csvEscapeField (cs : List Char) : List Char :=
  if needsQuoting cs then '"' :: (doubleQuotes cs ++ ['"']) else cs

/-- String-level CSV field escaping. -/
def csvEscapeStr (s : String) : String := String.mk (csvEscapeField s.toList)

/-- One raw result row from the log-analytics backend: a mapping of column
name to value (spec section 4.2). -/
abbrev RawRow := List (String × String)

/-- Typed audit entry produced from a raw row, with the fixed column schema
of spec section 6: timestamp, eventType, username, resourceId,
eventDetails, result. -/
structure CaseAuditEventEntry where
  timestamp : String
  eventType : String
  username : String
  resourceId : String
  eventDetails : String
  result : String
deriving DecidableEq, Repr

/-- Value of a named column in a raw row, empty when absent. -/
def lookupField (row : RawRow) (name : String) : String :=
  match row.find? (fun p => p.1 == name) with
  | some p => p.2
  | none => ""

/-- Modelled from the spec: the raw-row to typed-entry mapping of the
result formatter (audit-service is not under the checked sources); each
column of the fixed schema is read off the raw row by name. -/
def entryFromRow (row : RawRow) : CaseAuditEventEntry :=
  { timestamp := lookupField row "timestamp"
  , eventType := lookupField row "eventType"
  , username := lookupField row "username"
  , resourceId := lookupField row "resourceId"
  , eventDetails := lookupField row "eventDetails"
  , result := lookupField row "result" }

/-- The fixed CSV column order (spec section 6). -/
def entryCols (e : CaseAuditEventEntry) : List String :=
  [e.timestamp, e.eventType, e.username, e.resourceId, e.eventDetails, e.result]

/-- CSV header line, always emitted first. -/
def csvHeader : String := "timestamp,eventType,username,resourceId,eventDetails,result"

/-- Render one CSV line from a list of field values, escaping each field. -/
def renderLine (cols : List String) : String :=
  String.intercalate "," (cols.map csvEscapeStr)

/-- All lines of the rendered CSV: the header followed by one line per
entry in completion order. -/
def auditCsvLines (entries : List CaseAuditEventEntry) : List String :=
  csvHeader :: entries.map (fun e => renderLine (entryCols e))

/-- Modelled from the spec: CSV serialization of the result formatter
(spec sections 4.2 and 6) — header row plus one row per entry. -/
def renderCsv (entries : List CaseAuditEventEntry) : String :=
  String.intercalate "\n" (auditCsvLines entries)

/-- State of one query held by the external log-analytics service (spec
section 3, AuditQueryRecord): a status and paginated result batches. -/
structure QueryRecord where
  status : QueryStatus
  batches : List (List RawRow)

/-- The external log-analytics backend: the outcome its StartQuery call
will report, and its query records looked up by query handle. -/
structure Backend where
  startQueryResult : Option String
  queries : String → Option QueryRecord

/-- One outbound call made to the log-analytics backend, recorded so that
retry behaviour is visible in the embedding. -/
inductive BackendCall where
  | startQueryCall
  | getStatusCall (queryId : String)
  | getPageCall (queryId : String) (token : Nat)
deriving DecidableEq, Repr

/-- Persisted audit job record (spec section 3, AuditJob): keyed by `ulid`,
holding the backend query handle and the resource the audit was started
against. -/
structure AuditJob where
  ulid : String
  queryId : String
  resourceId : String
  auditType : AuditType
deriving DecidableEq, Repr

/-- Application-side durable state: the audit job store, the case-user
memberships consulted by the authorization guard, and the state of the
identifier generator. -/
structure AppState where
  auditJobs : List AuditJob
  memberships : List (String × String)
  ulidSeed : Nat
deriving DecidableEq, Repr

/-- Point lookup of an audit job by its key (spec section 4.3). -/
def getAuditJob (auditId : String) (st : AppState) : Option AuditJob :=
  st.auditJobs.find? (fun j => j.ulid == auditId)

/-- Modelled from the spec: `createAuditJob` (persistence/audit-job.ts is
not under the checked sources; `audit-test-support.ts` shows its call
shape).  It persists an AuditJob keyed by a fresh generated ULID holding
the backend query handle, and returns that fresh key. -/
def createAuditJob (queryId : String) (auditType : AuditType) (resourceId : String)
    (st : AppState) : String × AppState :=
  let fresh := ulidString st.ulidSeed
  (fresh,
   { st with
     auditJobs := { ulid := fresh, queryId := queryId, resourceId := resourceId,
                    auditType := auditType } :: st.auditJobs
     ulidSeed := st.ulidSeed + 1 })

/-- Modelled from the spec: `startAudit`, the job-persisting service-level
start path used by the resource-scoped endpoints (spec section 4.1; the
service module is not under the checked sources; `audit-test-support.ts`
pins its call shape and the `startCaseFileAudit` integration test pins the
returned auditId to ULID syntax).  One StartQuery call is issued; if the
backend returns no handle the operation fails with QueryStartError
carrying the message pinned by the integration tests; otherwise an
AuditJob is persisted via `createAuditJob` and its fresh key is returned
as the auditId.  The trace lists every backend call made.  The system
audit endpoint at this commit does not go through this path: see
`startSystemAudit`. -/
def startAudit (auditType : AuditType) (resourceId : String) (backend : Backend)
    (st : AppState) : Except DeaError String × AppState × List BackendCall :=
  match backend.startQueryResult with
  | none =>
    (Except.error (DeaError.queryStartError "Unknown error starting Cloudwatch Logs Query."),
     st, [BackendCall.startQueryCall])
  | some queryId =>
    let created := createAuditJob queryId auditType resourceId st
    (Except.ok created.1, created.2, [BackendCall.startQueryCall])

/-- Modelled from the spec: `startSystemAudit`, the system audit start
endpoint (start-system-audit.ts is not under the checked sources).  Its
in-src integration test `startSystemAudit responds with a queryId` calls
it with no repository provider and requires the response body to contain
the raw mocked handle, so at this commit the system path exposes the
backend query handle itself as the auditId and persists no job; the
no-handle branch fails with the same QueryStartError as the resource
paths, pinned by the same test file. -/
def startSystemAudit (backend : Backend) (st : AppState) :
    Except DeaError String × AppState × List BackendCall :=
  match backend.startQueryResult with
  | none =>
    (Except.error (DeaError.queryStartError "Unknown error starting Cloudwatch Logs Query."),
     st, [BackendCall.startQueryCall])
  | some queryId =>
    (Except.ok queryId, st, [BackendCall.startQueryCall])

/-- Fetch result pages from a record starting at a continuation token,
with explicit fuel; returns the accumulated rows and the tokens fetched. -/
def fetchPagesAux (batches : List (List RawRow)) : Nat → Nat → List RawRow × List Nat
  | 0, _ => ([], [])
  | fuel + 1, tok =>
    match batches.get? tok with
    | none => ([], [])
    | some batch =>
      let rest := fetchPagesAux batches fuel (tok + 1)
      (batch ++ rest.1, tok :: rest.2)

/-- Page through all result batches of a completed query (spec section
4.2), accumulating rows in completion order. -/
def collectQueryRows (rec : QueryRecord) : List RawRow × List Nat :=
  fetchPagesAux rec.batches rec.batches.length 0

/-- Payload returned to the caller by the results endpoint: either a
status-only payload or a rendered CSV body (spec section 4.2). -/
inductive AuditResultPayload where
  | statusOnly (status : QueryStatus)
  | csv (body : String)
deriving DecidableEq, Repr

/-- Modelled from the spec: one invocation of the result poller/formatter
on a query record (spec section 4.2).  The status is polled once; a
non-terminal status is returned immediately as a status payload, a failing
terminal status raises QueryExecutionError carrying that status, and a
Complete status pages through every batch and renders CSV. -/
def pollQuery (queryId : String) (rec : QueryRecord) :
    Except DeaError AuditResultPayload × List BackendCall :=
  match rec.status with
  | .Scheduled => (Except.ok (AuditResultPayload.statusOnly .Scheduled),
                   [BackendCall.getStatusCall queryId])
  | .Running => (Except.ok (AuditResultPayload.statusOnly .Running),
                 [BackendCall.getStatusCall queryId])
  | .Complete =>
    let fetched := collectQueryRows rec
    (Except.ok (AuditResultPayload.csv (renderCsv (fetched.1.map entryFromRow))),
     BackendCall.getStatusCall queryId :: fetched.2.map (BackendCall.getPageCall queryId))
  | s => (Except.error (DeaError.queryExecutionError s), [BackendCall.getStatusCall queryId])

/-- Does the caller currently hold a membership on the resource (spec
section 4.3, checked at read time)? -/
def callerHasMembership (caller : String) (memberships : List (String × String))
    (resourceId : String) : Bool :=
  memberships.contains (caller, resourceId)

/-- Modelled from the spec: the results endpoint with its authorization
guard (spec section 4.3; the resource handlers are not under the checked
sources, their behaviour is pinned by the e2e test
`case-audit.e2e.audit.test.ts`).  The job is looked up by auditId; a
missing job, a job whose stored resourceId differs from the endpoint's own
resource scope, or a caller without a current membership on the job's
resource all yield NotFoundError.  Otherwise the backend is polled.  The
application state is returned unchanged: polling is side-effect-free. -/
def getAuditResults (scopeResourceId auditId caller : String) (backend : Backend)
    (st : AppState) : Except DeaError AuditResultPayload × AppState × List BackendCall :=
  match getAuditJob auditId st with
  | none => (Except.error DeaError.notFoundError, st, [])
  | some job =>
    if job.resourceId ≠ scopeResourceId then
      (Except.error DeaError.notFoundError, st, [])
    else if ¬ callerHasMembership caller st.memberships job.resourceId then
      (Except.error DeaError.notFoundError, st, [])
    else
      match backend.queries job.queryId with
      | none => (Except.error DeaError.notFoundError, st, [])
      | some rec =>
        let polled := pollQuery job.queryId rec
        (polled.1, st, polled.2)

/-- HTTP response produced by a Lambda handler. -/
structure ApiResponse where
  statusCode : Nat
  body : String
deriving DecidableEq, Repr

/-- A value thrown by a handler: either a JS `Error` instance carrying a
name and a message, or any other thrown value. -/
inductive Thrown where
  | errorValue (name : String) (message : String)
  | nonErrorValue
deriving DecidableEq, Repr

/-- Incoming API Gateway event (only the fields the embedding needs). -/
structure Event where
  pathParameters : List (String × String)
deriving DecidableEq, Repr

/-- An event with no path parameters, as built by `getDummyEvent()`. -/
def dummyEvent : Event := { pathParameters := [] }

/-- A Lambda handler: it may return a response or throw. -/
def DEAGatewayProxyHandler := Event → Except Thrown ApiResponse

/-- Modelled from the spec: the registered exception handlers
(dea-backend's exception-handlers module is not under the checked sources;
spec section 7 gives the kind-to-status mapping: ValidationError 400,
NotFoundError 404, QueryStartError and QueryExecutionError 500). -/
def exceptionHandlers : List (String × (String → ApiResponse)) :=
  [("NotFoundError", fun message => { statusCode := 404, body := message }),
   ("ValidationError", fun message => { statusCode := 400, body := message }),
   ("QueryStartError", fun message => { statusCode := 500, body := message }),
   ("QueryExecutionError", fun message => { statusCode := 500, body := message })]

/-- HTTP status to which each error kind maps (spec section 7). -/
def httpStatusOfError : DeaError → Nat
  | .notFoundError => 404
  | .validationError _ => 400
  | .queryStartError _ => 500
  | .queryExecutionError _ => 500

/-- Lookup of a registered exception handler by error name (the
`exceptionHandlers.get(error.name)` of create-dea-handler.ts). -/
def lookupHandler (handlers : List (String × (String → ApiResponse)))
    (name : String) : Option (String → ApiResponse) :=
  match handlers.find? (fun p => p.1 == name) with
  | some p => some p.2
  | none => none

/-- Embeds `createDeaHandler` of dea-backend/src/handlers/create-dea-handler.ts:
run the wrapped handler inside a try/catch; a thrown `Error` whose name has
a registered exception handler is mapped by that handler, and any other
thrown value produces a 500 response with body "Error". -/
def createDeaHandler (handler : DEAGatewayProxyHandler) : Event → ApiResponse :=
  fun event =>
    match handler event with
    | Except.ok response => response
    | Except.error thrown =>
      match thrown with
      | Thrown.errorValue name message =>
        match lookupHandler exceptionHandlers name with
        | some errorHandler => errorHandler message
        | none => { statusCode := 500, body := "Error" }
      | Thrown.nonErrorValue => { statusCode := 500, body := "Error" }

/-- Modelled from the spec: the start-audit resource handler body (spec
sections 4.1 and 6): on success it responds 200 with the auditId, and a
DeaError raised by the service is thrown to the boundary wrapper. -/
def startAuditLambda (auditType : AuditType) (resourceId : String) (backend : Backend)
    (st : AppState) : Except Thrown ApiResponse :=
  match (startAudit auditType resourceId backend st).1 with
  | Except.ok auditId => Except.ok { statusCode := 200, body := auditId }
  | Except.error e => Except.error (Thrown.errorValue (errorName e) (errorMessage e))

/-- Modelled from the spec: the get-audit-results resource handler body
(spec sections 4.2, 4.3 and 6): a status payload or the CSV body is
returned with status 200, and a DeaError is thrown to the boundary
wrapper. -/
def auditResultsLambda (scopeResourceId auditId caller : String) (backend : Backend)
    (st : AppState) : Except Thrown ApiResponse :=
  match (getAuditResults scopeResourceId auditId caller backend st).1 with
  | Except.ok (AuditResultPayload.statusOnly s) =>
    Except.ok { statusCode := 200, body := statusName s }
  | Except.ok (AuditResultPayload.csv body) =>
    Except.ok { statusCode := 200, body := body }
  | Except.error e => Except.error (Thrown.errorValue (errorName e) (errorMessage e))

/-- A persisted case record (only the key matters for deletion). -/
structure CaseEntity where
  ulid : String
  name : String
deriving DecidableEq, Repr

/-- A persisted case-user membership association. -/
structure CaseUserEntity where
  caseUlid : String
  userUlid : String
deriving DecidableEq, Repr

/-- The durable store slice touched by case deletion. -/
structure CaseStore where
  cases : List CaseEntity
  caseUsers : List CaseUserEntity
deriving DecidableEq, Repr

/-- Modelled from the spec: `CasePersistence.deleteCase` (persistence/case.ts
is not under the checked sources) removes the case record keyed by the
given ulid. -/
def casePersistenceDeleteCase (caseUlid : String) (st : CaseStore) : CaseStore :=
  { st with cases := st.cases.filter (fun c => c.ulid != caseUlid) }

/-- Modelled from the spec: `CaseUserService.deleteCaseUsersForCase`
(case-user-service.ts is not under the checked sources) removes every
case-user association of the given case. -/
def deleteCaseUsersForCase (caseUlid : String) (st : CaseStore) : CaseStore :=
  { st with caseUsers := st.caseUsers.filter (fun m => m.caseUlid != caseUlid) }

/-- Embeds `deleteCase` of dea-app/src/app/services/case-service.ts: first
delete the case record, then delete every case-user association of that
case. -/
def deleteCase (caseUlid : String) (st : CaseStore) : CaseStore :=
  deleteCaseUsersForCase caseUlid (casePersistenceDeleteCase caseUlid st)

/-- The base32 rendering always has the requested width. -/
theorem ulidChars_length (w : Nat) : ∀ n, (ulidChars w n).length = w := by
  induction w with
  | zero => intro n; rfl
  | succ w ih =>
    intro n
    simp [ulidChars, ih]

/-- Encoding only depends on the five low bits. -/
theorem encodeChar_mod (n : Nat) : encodeChar (n % 32) = encodeChar n := by
  simp only [encodeChar]
  have h : n % 32 % 32 = n % 32 := by omega
  rw [h]

/-- Every encoded character is drawn from the Crockford alphabet. -/
theorem encodeChar_small_mem : ∀ k : Fin 32, crockford.contains (encodeChar k.val) = true := by
  decide

/-- Every encoded character is drawn from the Crockford alphabet. -/
theorem encodeChar_mem (n : Nat) : crockford.contains (encodeChar n) = true := by
  have hlt : n % 32 < 32 := Nat.mod_lt _ (by omega)
  have := encodeChar_small_mem ⟨n % 32, hlt⟩
  rwa [encodeChar_mod] at this

/-- Decoding inverts encoding on five-bit values. -/
theorem decodeChar_encodeChar_small : ∀ k : Fin 32, decodeChar (encodeChar k.val) = k.val := by
  decide

/-- Decoding an encoded character recovers the five low bits. -/
theorem decodeChar_encodeChar (n : Nat) : decodeChar (encodeChar n) = n % 32 := by
  have hlt : n % 32 < 32 := Nat.mod_lt _ (by omega)
  have := decodeChar_encodeChar_small ⟨n % 32, hlt⟩
  rwa [encodeChar_mod] at this

/-- Folding the decoder over an appended final character. -/
theorem decodeChars_snoc (cs : List Char) (c : Char) :
    decodeChars (cs ++ [c]) = decodeChars cs * 32 + decodeChar c := by
  simp [decodeChars, List.foldl_append]

/-- Decoding a width-`w` rendering recovers the number modulo `32 ^ w`. -/
theorem decodeChars_ulidChars (w : Nat) : ∀ n, decodeChars (ulidChars w n) = n % 32 ^ w := by
  induction w with
  | zero => intro n; simp [ulidChars, decodeChars, Nat.mod_one]
  | succ w ih =>
    intro n
    rw [ulidChars, decodeChars_snoc, ih, decodeChar_encodeChar]
    rw [pow_succ, Nat.mul_comm (32 ^ w) 32, Nat.mod_mul]
    ring

/-- The fixed-width rendering is injective below its capacity. -/
theorem ulidChars_injective (w n m : Nat) (hn : n < 32 ^ w) (hm : m < 32 ^ w)
    (h : ulidChars w n = ulidChars w m) : n = m := by
  have hd := congrArg decodeChars h
  rw [decodeChars_ulidChars, decodeChars_ulidChars] at hd
  rwa [Nat.mod_eq_of_lt hn, Nat.mod_eq_of_lt hm] at hd

/-- Every character of a rendering is drawn from the Crockford alphabet. -/
theorem ulidChars_chars (w : Nat) : ∀ n c, c ∈ ulidChars w n → crockford.contains c = true := by
  induction w with
  | zero => intro n c hc; simp [ulidChars] at hc
  | succ w ih =>
    intro n c hc
    rw [ulidChars] at hc
    rcases List.mem_append.mp hc with h | h
    · exact ih _ c h
    · rw [List.mem_singleton] at h
      rw [h]
      exact encodeChar_mem n

/-- Generated identifiers satisfy the syntactic ULID check. -/
theorem isValidUlid_ulidString (n : Nat) : isValidUlid (ulidString n) = true := by
  have htl : (ulidString n).toList = ulidChars 26 n := rfl
  unfold isValidUlid
  rw [htl, Bool.and_eq_true]
  constructor
  · rw [ulidChars_length 26 n]
    rfl
  · rw [List.all_eq_true]
    intro c hc
    exact ulidChars_chars 26 n c hc

/-- Distinct generator states below the 26-character capacity give distinct
identifiers. -/
theorem ulidString_injective (n m : Nat) (hn : n < 32 ^ 26) (hm : m < 32 ^ 26)
    (h : ulidString n = ulidString m) : n = m := by
  have hl : ulidChars 26 n = ulidChars 26 m := by
    have := congrArg String.data h
    simpa [ulidString] using this
  exact ulidChars_injective 26 n m hn hm hl

/-- With enough fuel, paging from a token accumulates exactly the rows of
the remaining batches, in order. -/
theorem fetchPagesAux_rows (batches : List (List RawRow)) :
    ∀ fuel tok, batches.length ≤ tok + fuel →
      (fetchPagesAux batches fuel tok).1 = (batches.drop tok).flatten := by
  intro fuel
  induction fuel with
  | zero =>
    intro tok h
    rw [List.drop_eq_nil_of_le (by omega)]
    rfl
  | succ fuel ih =>
    intro tok h
    rw [fetchPagesAux]
    cases hget : batches.get? tok with
    | none =>
      have hlen : batches.length ≤ tok := List.get?_eq_none.mp hget
      rw [List.drop_eq_nil_of_le hlen]
      rfl
    | some batch =>
      have hlt : tok < batches.length := by
        by_contra hc
        rw [List.get?_eq_none.mpr (by omega)] at hget
        cases hget
      have h1 : batches[tok]? = some batch := by
        rw [← List.get?_eq_getElem?]
        exact hget
      have hbatch : batches[tok] = batch := by
        rw [List.getElem?_eq_getElem hlt] at h1
        exact Option.some.inj h1
      rw [List.drop_eq_getElem_cons hlt, hbatch, List.flatten_cons]
      show batch ++ (fetchPagesAux batches fuel (tok + 1)).1 = _
      rw [ih (tok + 1) (by omega)]

/-- Paging a completed query's record yields every row of every batch. -/
theorem collectQueryRows_flatten (rec : QueryRecord) :
    (collectQueryRows rec).1 = rec.batches.flatten := by
  rw [collectQueryRows, fetchPagesAux_rows rec.batches rec.batches.length 0 (by omega)]
  rfl

/-- Collapsing a freshly non-quote head commutes with `undoubleQuotes`. -/
theorem undoubleQuotes_cons (c : Char) (cs : List Char) (h : (c == '"') = false) :
    undoubleQuotes (c :: cs) = c :: undoubleQuotes cs := by
  cases cs with
  | nil => rfl
  | cons c2 rest =>
    rw [undoubleQuotes]
    rw [if_neg]
    rw [h]
    simp

/-- Collapsing doubled quotes undoes the doubling: the escaping step is
lossless. -/
theorem undoubleQuotes_doubleQuotes (cs : List Char) :
    undoubleQuotes (doubleQuotes cs) = cs := by
  induction cs with
  | nil => rfl
  | cons c rest ih =>
    rw [doubleQuotes]
    by_cases hq : c == '"'
    · rw [if_pos hq, undoubleQuotes]
      rw [if_pos (by decide)]
      rw [ih]
      have hc : c = '"' := by
        simpa using hq
      rw [hc]
    · have hqf : (c == '"') = false := by
        simpa using hq
      rw [if_neg (by rw [hqf]; simp)]
      rw [undoubleQuotes_cons c (doubleQuotes rest) hqf, ih]

/-- The GET results path writes nothing: the application state it returns
is the state it was given. -/
theorem getAuditResults_preserves_state (scopeResourceId auditId caller : String)
    (backend : Backend) (st : AppState) :
    (getAuditResults scopeResourceId auditId caller backend st).2.1 = st := by
  unfold getAuditResults
  split
  · rfl
  · split
    · rfl
    · split
      · rfl
      · split
        · rfl
        · rfl

/-- C1: the claim that the identifier exposed to the client as `auditId`
is the backend's own query handle is false: at a concrete input where the
backend hands back the handle "a_query_id", the start succeeds and the
returned auditId is the freshly generated job key, which differs from the
handle (the integration test `startCaseFileAudit responds with a queryId`
pins the returned auditId to ULID syntax, which "a_query_id" fails). -/
theorem C1_counterexample :
    (startAudit AuditType.CASE_FILE "case-file-resource"
        { startQueryResult := some "a_query_id", queries := fun _ => none }
        { auditJobs := [], memberships := [], ulidSeed := 0 }).1 =
      Except.ok (ulidString 0) ∧
    ulidString 0 ≠ "a_query_id" := by
  constructor
  · rfl
  · decide

/-- C1 (amended): what each successful start path exposes as `auditId`
depends on the path.  The system audit endpoint exposes the backend's own
query handle and persists no job (its in-src integration test calls it
with no repository provider and requires the raw handle in the response
body); a start that goes through the job-persisting service path — as the
resource-scoped endpoints do — instead exposes the fresh key of the
persisted AuditJob, distinct from but mapped 1:1 to the backend handle:
the job looked up by that auditId holds exactly the handle. -/
theorem C1_audit_id_by_start_path (auditType : AuditType) (resourceId qid : String)
    (backend : Backend) (st : AppState) (h : backend.startQueryResult = some qid) :
    (startSystemAudit backend st).1 = Except.ok qid ∧
    (startSystemAudit backend st).2.1 = st ∧
    (startAudit auditType resourceId backend st).1 = Except.ok (ulidString st.ulidSeed) ∧
    getAuditJob (ulidString st.ulidSeed) (startAudit auditType resourceId backend st).2.1 =
      some { ulid := ulidString st.ulidSeed, queryId := qid, resourceId := resourceId,
             auditType := auditType } := by
  refine ⟨?_, ?_, ?_, ?_⟩
  · simp [startSystemAudit, h]
  · simp [startSystemAudit, h]
  · simp [startAudit, h, createAuditJob]
  · simp [startAudit, h, createAuditJob, getAuditJob]

/-- C1 witness: the amended statement at a concrete input. -/
theorem C1_witness :
    (startSystemAudit
        { startQueryResult := some "query-handle-1", queries := fun _ => none }
        { auditJobs := [], memberships := [], ulidSeed := 5 }).1 =
      Except.ok "query-handle-1" ∧
    (startSystemAudit
        { startQueryResult := some "query-handle-1", queries := fun _ => none }
        { auditJobs := [], memberships := [], ulidSeed := 5 }).2.1 =
      { auditJobs := [], memberships := [], ulidSeed := 5 } ∧
    (startAudit AuditType.CASE "res1"
        { startQueryResult := some "query-handle-1", queries := fun _ => none }
        { auditJobs := [], memberships := [], ulidSeed := 5 }).1 =
      Except.ok (ulidString 5) ∧
    getAuditJob (ulidString 5)
        (startAudit AuditType.CASE "res1"
          { startQueryResult := some "query-handle-1", queries := fun _ => none }
          { auditJobs := [], memberships := [], ulidSeed := 5 }).2.1 =
      some { ulid := ulidString 5, queryId := "query-handle-1", resourceId := "res1",
             auditType := AuditType.CASE } :=
  C1_audit_id_by_start_path AuditType.CASE "res1" "query-handle-1"
    { startQueryResult := some "query-handle-1", queries := fun _ => none }
    { auditJobs := [], memberships := [], ulidSeed := 5 } rfl

/-- C2: an auditId minted for one resource, queried through a results
endpoint whose own resource scope differs, yields NotFoundError — mapped
by the boundary wrapper to HTTP 404 — even when the caller holds a current
membership on the endpoint's own resource: the guard compares the job's
stored resourceId against the endpoint's resource scope, not merely the
caller's permissions. -/
theorem C2_cross_resource_audit_id_404 (caseResourceId scopeResourceId caller qid : String)
    (backend : Backend) (st : AppState)
    (hstart : backend.startQueryResult = some qid)
    (hscope : caseResourceId ≠ scopeResourceId)
    (_hauth : callerHasMembership caller st.memberships scopeResourceId = true) :
    (getAuditResults scopeResourceId (ulidString st.ulidSeed) caller backend
        (startAudit AuditType.CASE caseResourceId backend st).2.1).1 =
      Except.error DeaError.notFoundError ∧
    createDeaHandler
        (fun _ =>
          auditResultsLambda scopeResourceId (ulidString st.ulidSeed) caller backend
            (startAudit AuditType.CASE caseResourceId backend st).2.1)
        dummyEvent =
      { statusCode := 404, body := "Resource Not Found" } := by
  have hres : (getAuditResults scopeResourceId (ulidString st.ulidSeed) caller backend
      (startAudit AuditType.CASE caseResourceId backend st).2.1).1 =
      Except.error DeaError.notFoundError := by
    simp [startAudit, hstart, createAuditJob, getAuditResults, getAuditJob, hscope]
  refine ⟨hres, ?_⟩
  simp [createDeaHandler, auditResultsLambda, hres, errorName, errorMessage,
    lookupHandler, exceptionHandlers]

/-- C2 witness: a concrete case-scoped auditId presented at the
system-scope results endpoint by a caller who does hold a membership on
the system scope. -/
theorem C2_witness :
    (getAuditResults "SYSTEM" (ulidString 0) "manager"
        { startQueryResult := some "qh-22", queries := fun _ => none }
        (startAudit AuditType.CASE "case-7"
          { startQueryResult := some "qh-22", queries := fun _ => none }
          { auditJobs := [], memberships := [("manager", "SYSTEM")], ulidSeed := 0 }).2.1).1 =
      Except.error DeaError.notFoundError ∧
    createDeaHandler
        (fun _ =>
          auditResultsLambda "SYSTEM" (ulidString 0) "manager"
            { startQueryResult := some "qh-22", queries := fun _ => none }
            (startAudit AuditType.CASE "case-7"
              { startQueryResult := some "qh-22", queries := fun _ => none }
              { auditJobs := [], memberships := [("manager", "SYSTEM")], ulidSeed := 0 }).2.1)
        dummyEvent =
      { statusCode := 404, body := "Resource Not Found" } :=
  C2_cross_resource_audit_id_404 "case-7" "SYSTEM" "manager" "qh-22"
    { startQueryResult := some "qh-22", queries := fun _ => none }
    { auditJobs := [], memberships := [("manager", "SYSTEM")], ulidSeed := 0 }
    rfl (by decide) rfl

/-- C3: when the log-analytics backend returns no query handle, startAudit
fails with QueryStartError carrying the message "Unknown error starting
Cloudwatch Logs Query.", the trace shows exactly one StartQuery call (no
transient retry), and the boundary wrapper surfaces the failure to the
caller as a 500 response. -/
theorem C3_no_handle_query_start_error (auditType : AuditType) (resourceId : String)
    (backend : Backend) (st : AppState) (h : backend.startQueryResult = none) :
    (startAudit auditType resourceId backend st).1 =
      Except.error (DeaError.queryStartError "Unknown error starting Cloudwatch Logs Query.") ∧
    (startAudit auditType resourceId backend st).2.2 = [BackendCall.startQueryCall] ∧
    createDeaHandler (fun _ => startAuditLambda auditType resourceId backend st) dummyEvent =
      { statusCode := 500, body := "Unknown error starting Cloudwatch Logs Query." } := by
  have herr : (startAudit auditType resourceId backend st).1 =
      Except.error (DeaError.queryStartError "Unknown error starting Cloudwatch Logs Query.") := by
    simp [startAudit, h]
  refine ⟨herr, ?_, ?_⟩
  · simp [startAudit, h]
  · simp [createDeaHandler, startAuditLambda, herr, errorName, errorMessage,
      lookupHandler, exceptionHandlers]

/-- C3 witness: a concrete backend that reports no handle. -/
theorem C3_witness :
    (startAudit AuditType.SYSTEM "SYSTEM"
        { startQueryResult := none, queries := fun _ => none }
        { auditJobs := [], memberships := [], ulidSeed := 0 }).1 =
      Except.error (DeaError.queryStartError "Unknown error starting Cloudwatch Logs Query.") ∧
    (startAudit AuditType.SYSTEM "SYSTEM"
        { startQueryResult := none, queries := fun _ => none }
        { auditJobs := [], memberships := [], ulidSeed := 0 }).2.2 =
      [BackendCall.startQueryCall] ∧
    createDeaHandler
        (fun _ =>
          startAuditLambda AuditType.SYSTEM "SYSTEM"
            { startQueryResult := none, queries := fun _ => none }
            { auditJobs := [], memberships := [], ulidSeed := 0 })
        dummyEvent =
      { statusCode := 500, body := "Unknown error starting Cloudwatch Logs Query." } :=
  C3_no_handle_query_start_error AuditType.SYSTEM "SYSTEM"
    { startQueryResult := none, queries := fun _ => none }
    { auditJobs := [], memberships := [], ulidSeed := 0 } rfl

/-- C4: polling a query whose backend status is non-terminal (Scheduled or
Running) returns a status-only payload, never a CSV body; a single
invocation makes exactly one status call against the backend (no blocking
wait, no result paging), and the GET path leaves the application state
unchanged, so any number of repeated invocations behave identically. -/
theorem C4_nonterminal_status_only (queryId : String) (rec : QueryRecord)
    (scopeResourceId auditId caller : String) (backend : Backend) (st : AppState)
    (h : rec.status = QueryStatus.Scheduled ∨ rec.status = QueryStatus.Running) :
    (pollQuery queryId rec).1 = Except.ok (AuditResultPayload.statusOnly rec.status) ∧
    (∀ body, (pollQuery queryId rec).1 ≠ Except.ok (AuditResultPayload.csv body)) ∧
    (pollQuery queryId rec).2 = [BackendCall.getStatusCall queryId] ∧
    (getAuditResults scopeResourceId auditId caller backend st).2.1 = st := by
  rcases h with h | h <;>
    exact ⟨by simp [pollQuery, h], by intro body; simp [pollQuery, h],
      by simp [pollQuery, h], getAuditResults_preserves_state _ _ _ _ _⟩

/-- C4 witness: a concrete Running query. -/
theorem C4_witness :
    (pollQuery "qh-1" { status := QueryStatus.Running, batches := [] }).1 =
      Except.ok (AuditResultPayload.statusOnly QueryStatus.Running) ∧
    (pollQuery "qh-1" { status := QueryStatus.Running, batches := [] }).1 ≠
      Except.ok (AuditResultPayload.csv "timestamp,eventType") ∧
    (pollQuery "qh-1" { status := QueryStatus.Running, batches := [] }).2 =
      [BackendCall.getStatusCall "qh-1"] ∧
    (getAuditResults "res" "aid" "user"
        { startQueryResult := none, queries := fun _ => none }
        { auditJobs := [], memberships := [], ulidSeed := 0 }).2.1 =
      { auditJobs := [], memberships := [], ulidSeed := 0 } :=
  ⟨(C4_nonterminal_status_only "qh-1" { status := QueryStatus.Running, batches := [] }
      "res" "aid" "user" { startQueryResult := none, queries := fun _ => none }
      { auditJobs := [], memberships := [], ulidSeed := 0 } (Or.inr rfl)).1,
   (C4_nonterminal_status_only "qh-1" { status := QueryStatus.Running, batches := [] }
      "res" "aid" "user" { startQueryResult := none, queries := fun _ => none }
      { auditJobs := [], memberships := [], ulidSeed := 0 } (Or.inr rfl)).2.1
      "timestamp,eventType",
   (C4_nonterminal_status_only "qh-1" { status := QueryStatus.Running, batches := [] }
      "res" "aid" "user" { startQueryResult := none, queries := fun _ => none }
      { auditJobs := [], memberships := [], ulidSeed := 0 } (Or.inr rfl)).2.2.1,
   (C4_nonterminal_status_only "qh-1" { status := QueryStatus.Running, batches := [] }
      "res" "aid" "user" { startQueryResult := none, queries := fun _ => none }
      { auditJobs := [], memberships := [], ulidSeed := 0 } (Or.inr rfl)).2.2.2⟩

/-- C5: polling a query whose backend status is a failing terminal state
(Failed, Cancelled or Timeout) fails with QueryExecutionError carrying
that terminal status; the trace shows a single status call and no result
paging, so no CSV — not even a partial one — is generated, and nothing is
retried. -/
theorem C5_failing_terminal_query_execution_error (queryId : String) (rec : QueryRecord)
    (h : rec.status = QueryStatus.Failed ∨ rec.status = QueryStatus.Cancelled ∨
         rec.status = QueryStatus.Timeout) :
    (pollQuery queryId rec).1 = Except.error (DeaError.queryExecutionError rec.status) ∧
    (pollQuery queryId rec).2 = [BackendCall.getStatusCall queryId] ∧
    (∀ body, (pollQuery queryId rec).1 ≠ Except.ok (AuditResultPayload.csv body)) ∧
    (∀ tok, BackendCall.getPageCall queryId tok ∉ (pollQuery queryId rec).2) := by
  rcases h with h | h | h <;>
    exact ⟨by simp [pollQuery, h], by simp [pollQuery, h],
      by intro body; simp [pollQuery, h], by intro tok; simp [pollQuery, h]⟩

/-- C5 witness: a concrete Failed query with results retained upstream. -/
theorem C5_witness :
    (pollQuery "qh-2" { status := QueryStatus.Failed, batches := [[[("timestamp", "t")]]] }).1 =
      Except.error (DeaError.queryExecutionError QueryStatus.Failed) ∧
    (pollQuery "qh-2" { status := QueryStatus.Failed, batches := [[[("timestamp", "t")]]] }).2 =
      [BackendCall.getStatusCall "qh-2"] ∧
    (pollQuery "qh-2" { status := QueryStatus.Failed, batches := [[[("timestamp", "t")]]] }).1 ≠
      Except.ok (AuditResultPayload.csv "timestamp,eventType") ∧
    BackendCall.getPageCall "qh-2" 0 ∉
      (pollQuery "qh-2" { status := QueryStatus.Failed, batches := [[[("timestamp", "t")]]] }).2 :=
  ⟨(C5_failing_terminal_query_execution_error "qh-2"
      { status := QueryStatus.Failed, batches := [[[("timestamp", "t")]]] } (Or.inl rfl)).1,
   (C5_failing_terminal_query_execution_error "qh-2"
      { status := QueryStatus.Failed, batches := [[[("timestamp", "t")]]] } (Or.inl rfl)).2.1,
   (C5_failing_terminal_query_execution_error "qh-2"
      { status := QueryStatus.Failed, batches := [[[("timestamp", "t")]]] } (Or.inl rfl)).2.2.1
      "timestamp,eventType",
   (C5_failing_terminal_query_execution_error "qh-2"
      { status := QueryStatus.Failed, batches := [[[("timestamp", "t")]]] } (Or.inl rfl)).2.2.2 0⟩

/-- C6: polling a Complete query returns CSV rendered from every row of
every paginated batch; the header row is always present (even for zero
entries), the line count is one header plus one line per underlying event,
each data line is rendered from the fixed six-column schema (timestamp,
eventType, username, resourceId, eventDetails, result), and any field
value containing the delimiter, a quote or a newline is quoted with
internal quotes doubled — losslessly, since collapsing the doubling
recovers the original value. -/
theorem C6_complete_csv_shape (queryId : String) (rec : QueryRecord)
    (h : rec.status = QueryStatus.Complete) :
    (pollQuery queryId rec).1 =
      Except.ok (AuditResultPayload.csv (renderCsv (rec.batches.flatten.map entryFromRow))) ∧
    (∀ entries, auditCsvLines entries =
        csvHeader :: entries.map (fun e => renderLine (entryCols e))) ∧
    (∀ entries, (auditCsvLines entries).head? = some csvHeader) ∧
    (auditCsvLines (rec.batches.flatten.map entryFromRow)).length =
      1 + rec.batches.flatten.length ∧
    (∀ e, entryCols e =
        [e.timestamp, e.eventType, e.username, e.resourceId, e.eventDetails, e.result]) ∧
    (∀ s, needsQuoting s.toList = true →
        csvEscapeStr s = String.mk ('"' :: (doubleQuotes s.toList ++ ['"'])) ∧
        undoubleQuotes (doubleQuotes s.toList) = s.toList) ∧
    (∀ s, needsQuoting s.toList = false → csvEscapeStr s = s) := by
  refine ⟨?_, fun entries => rfl, fun entries => rfl, ?_, fun e => rfl, ?_, ?_⟩
  · simp only [pollQuery, h]
    rw [collectQueryRows_flatten]
  · rw [auditCsvLines, List.length_cons, List.length_map, List.length_map]
    omega
  · intro s hq
    have hq' : needsQuoting s.data = true := hq
    constructor
    · simp [csvEscapeStr, csvEscapeField, hq']
    · exact undoubleQuotes_doubleQuotes s.toList
  · intro s hq
    have hq' : needsQuoting s.data = false := hq
    simp [csvEscapeStr, csvEscapeField, hq']

/-- C6 witness: a concrete Complete query with two batches whose values
exercise delimiter and quote escaping. -/
theorem C6_witness :
    (pollQuery "qh-3"
        { status := QueryStatus.Complete,
          batches :=
            [[[("timestamp", "2023-01-01"), ("eventType", "CreateCase"),
               ("username", "alice"), ("resourceId", "case-1"),
               ("eventDetails", "made a case, quickly"), ("result", "success")]],
             [[("timestamp", "2023-01-02"), ("eventType", "UpdateCaseDetails"),
               ("username", "bob\"the\"builder"), ("resourceId", "case-1"),
               ("eventDetails", "TransactWriteItems"), ("result", "success")]]] }).1 =
      Except.ok (AuditResultPayload.csv (renderCsv
        (([[[("timestamp", "2023-01-01"), ("eventType", "CreateCase"),
             ("username", "alice"), ("resourceId", "case-1"),
             ("eventDetails", "made a case, quickly"), ("result", "success")]],
           [[("timestamp", "2023-01-02"), ("eventType", "UpdateCaseDetails"),
             ("username", "bob\"the\"builder"), ("resourceId", "case-1"),
             ("eventDetails", "TransactWriteItems"), ("result", "success")]]] :
            List (List RawRow)).flatten.map entryFromRow))) ∧
    needsQuoting "made a case, quickly".toList = true ∧
    csvEscapeStr "made a case, quickly" = "\"made a case, quickly\"" ∧
    csvEscapeStr "bob\"the\"builder" = "\"bob\"\"the\"\"builder\"" ∧
    undoubleQuotes (doubleQuotes "bob\"the\"builder".toList) = "bob\"the\"builder".toList := by
  refine ⟨(C6_complete_csv_shape "qh-3" _ rfl).1, by decide, ?_, ?_,
    ((C6_complete_csv_shape "qh-3"
      { status := QueryStatus.Complete,
        batches :=
          [[[("timestamp", "2023-01-01"), ("eventType", "CreateCase"),
             ("username", "alice"), ("resourceId", "case-1"),
             ("eventDetails", "made a case, quickly"), ("result", "success")]],
           [[("timestamp", "2023-01-02"), ("eventType", "UpdateCaseDetails"),
             ("username", "bob\"the\"builder"), ("resourceId", "case-1"),
             ("eventDetails", "TransactWriteItems"), ("result", "success")]]] } rfl).2.2.2.2.2.1
      "bob\"the\"builder" (by decide)).2⟩
  · exact ((C6_complete_csv_shape "qh-3"
      { status := QueryStatus.Complete,
        batches :=
          [[[("timestamp", "2023-01-01"), ("eventType", "CreateCase"),
             ("username", "alice"), ("resourceId", "case-1"),
             ("eventDetails", "made a case, quickly"), ("result", "success")]],
           [[("timestamp", "2023-01-02"), ("eventType", "UpdateCaseDetails"),
             ("username", "bob\"the\"builder"), ("resourceId", "case-1"),
             ("eventDetails", "TransactWriteItems"), ("result", "success")]]] } rfl).2.2.2.2.2.1
      "made a case, quickly" (by decide)).1.trans (by decide)
  · exact ((C6_complete_csv_shape "qh-3"
      { status := QueryStatus.Complete,
        batches :=
          [[[("timestamp", "2023-01-01"), ("eventType", "CreateCase"),
             ("username", "alice"), ("resourceId", "case-1"),
             ("eventDetails", "made a case, quickly"), ("result", "success")]],
           [[("timestamp", "2023-01-02"), ("eventType", "UpdateCaseDetails"),
             ("username", "bob\"the\"builder"), ("resourceId", "case-1"),
             ("eventDetails", "TransactWriteItems"), ("result", "success")]]] } rfl).2.2.2.2.2.1
      "bob\"the\"builder" (by decide)).1.trans (by decide)

/-- C7: the GET results path is side-effect-free — it hands back the
application state untouched — so invoking it twice over the same retained
backend result set yields identical payloads (in particular byte-identical
CSV after completion), no matter how often it is repeated before or after
completion. -/
theorem C7_poll_deterministic_idempotent (scopeResourceId auditId caller : String)
    (backend : Backend) (st : AppState) :
    (getAuditResults scopeResourceId auditId caller backend st).2.1 = st ∧
    (getAuditResults scopeResourceId auditId caller backend
        (getAuditResults scopeResourceId auditId caller backend st).2.1).1 =
      (getAuditResults scopeResourceId auditId caller backend st).1 ∧
    (getAuditResults scopeResourceId auditId caller backend
        (getAuditResults scopeResourceId auditId caller backend st).2.1).2.1 = st := by
  refine ⟨getAuditResults_preserves_state _ _ _ _ _, ?_, ?_⟩
  · rw [getAuditResults_preserves_state]
  · rw [getAuditResults_preserves_state, getAuditResults_preserves_state]

/-- C8: for every valid resource and audit type, a successful startAudit
returns an auditId in valid fixed-length sortable (ULID) syntax, a second
successful call returns the identifier of the advanced generator state,
the two identifiers differ, and in general identifiers generated from
distinct generator states within the 26-character capacity are pairwise
distinct. -/
theorem C8_audit_ids_valid_and_distinct (t1 t2 : AuditType) (r1 r2 q1 q2 : String)
    (b1 b2 : Backend) (st : AppState)
    (h1 : b1.startQueryResult = some q1) (h2 : b2.startQueryResult = some q2)
    (hbound : st.ulidSeed + 1 < 32 ^ 26) :
    (startAudit t1 r1 b1 st).1 = Except.ok (ulidString st.ulidSeed) ∧
    isValidUlid (ulidString st.ulidSeed) = true ∧
    (startAudit t2 r2 b2 (startAudit t1 r1 b1 st).2.1).1 =
      Except.ok (ulidString (st.ulidSeed + 1)) ∧
    ulidString st.ulidSeed ≠ ulidString (st.ulidSeed + 1) ∧
    (∀ n m, n ≠ m → n < 32 ^ 26 → m < 32 ^ 26 → ulidString n ≠ ulidString m) := by
  refine ⟨by simp [startAudit, h1, createAuditJob], isValidUlid_ulidString st.ulidSeed,
    by simp [startAudit, h1, h2, createAuditJob], ?_, ?_⟩
  · intro heq
    have := ulidString_injective st.ulidSeed (st.ulidSeed + 1) (by omega) hbound heq
    omega
  · intro n m hne hn hm heq
    exact hne (ulidString_injective n m hn hm heq)

/-- C8 witness: two concrete successive calls from a fresh generator. -/
theorem C8_witness :
    (startAudit AuditType.CASE "case-1"
        { startQueryResult := some "qh-a", queries := fun _ => none }
        { auditJobs := [], memberships := [], ulidSeed := 0 }).1 =
      Except.ok (ulidString 0) ∧
    isValidUlid (ulidString 0) = true ∧
    (startAudit AuditType.CASE "case-1"
        { startQueryResult := some "qh-b", queries := fun _ => none }
        (startAudit AuditType.CASE "case-1"
          { startQueryResult := some "qh-a", queries := fun _ => none }
          { auditJobs := [], memberships := [], ulidSeed := 0 }).2.1).1 =
      Except.ok (ulidString 1) ∧
    ulidString 0 ≠ ulidString 1 :=
  ⟨(C8_audit_ids_valid_and_distinct AuditType.CASE AuditType.CASE "case-1" "case-1"
      "qh-a" "qh-b" { startQueryResult := some "qh-a", queries := fun _ => none }
      { startQueryResult := some "qh-b", queries := fun _ => none }
      { auditJobs := [], memberships := [], ulidSeed := 0 } rfl rfl (by norm_num)).1,
   (C8_audit_ids_valid_and_distinct AuditType.CASE AuditType.CASE "case-1" "case-1"
      "qh-a" "qh-b" { startQueryResult := some "qh-a", queries := fun _ => none }
      { startQueryResult := some "qh-b", queries := fun _ => none }
      { auditJobs := [], memberships := [], ulidSeed := 0 } rfl rfl (by norm_num)).2.1,
   (C8_audit_ids_valid_and_distinct AuditType.CASE AuditType.CASE "case-1" "case-1"
      "qh-a" "qh-b" { startQueryResult := some "qh-a", queries := fun _ => none }
      { startQueryResult := some "qh-b", queries := fun _ => none }
      { auditJobs := [], memberships := [], ulidSeed := 0 } rfl rfl (by norm_num)).2.2.1,
   (C8_audit_ids_valid_and_distinct AuditType.CASE AuditType.CASE "case-1" "case-1"
      "qh-a" "qh-b" { startQueryResult := some "qh-a", queries := fun _ => none }
      { startQueryResult := some "qh-b", queries := fun _ => none }
      { auditJobs := [], memberships := [], ulidSeed := 0 } rfl rfl (by norm_num)).2.2.2.1⟩

/-- C9: the boundary wrapper catches every outcome of the wrapped handler
and maps it by error kind: a successful response passes through, a thrown
Error whose name has a registered exception handler is mapped by it, any
other thrown value — an Error with an unregistered name or a non-Error —
produces a 500 response with body "Error"; and when the audit results path
fails, the caller receives exactly the error mapping of the taxonomy (404
for NotFoundError, 400 for ValidationError, 500 otherwise) with the error
message as body — never any CSV content. -/
theorem C9_boundary_error_mapping (handler : DEAGatewayProxyHandler) (event : Event) :
    (∀ r, handler event = Except.ok r → createDeaHandler handler event = r) ∧
    (∀ name message errorHandler,
        handler event = Except.error (Thrown.errorValue name message) →
        lookupHandler exceptionHandlers name = some errorHandler →
        createDeaHandler handler event = errorHandler message) ∧
    (∀ name message,
        handler event = Except.error (Thrown.errorValue name message) →
        lookupHandler exceptionHandlers name = none →
        createDeaHandler handler event = { statusCode := 500, body := "Error" }) ∧
    (handler event = Except.error Thrown.nonErrorValue →
        createDeaHandler handler event = { statusCode := 500, body := "Error" }) ∧
    (∀ scopeResourceId auditId caller backend st e,
        (getAuditResults scopeResourceId auditId caller backend st).1 = Except.error e →
        createDeaHandler
            (fun _ => auditResultsLambda scopeResourceId auditId caller backend st) event =
          { statusCode := httpStatusOfError e, body := errorMessage e }) := by
  refine ⟨?_, ?_, ?_, ?_, ?_⟩
  · intro r hr
    simp [createDeaHandler, hr]
  · intro name message errorHandler hr hl
    simp [createDeaHandler, hr, hl]
  · intro name message hr hl
    simp [createDeaHandler, hr, hl]
  · intro hr
    simp [createDeaHandler, hr]
  · intro scopeResourceId auditId caller backend st e he
    cases e <;>
      simp [createDeaHandler, auditResultsLambda, he, errorName, errorMessage,
        httpStatusOfError, lookupHandler, exceptionHandlers]

/-- C9 witness: a handler throwing a registered NotFoundError is mapped to
404, and one throwing an unregistered Error falls back to 500 "Error". -/
theorem C9_witness :
    createDeaHandler
        (fun _ => Except.error (Thrown.errorValue "NotFoundError" "Resource Not Found"))
        dummyEvent =
      { statusCode := 404, body := "Resource Not Found" } ∧
    createDeaHandler (fun _ => Except.error (Thrown.errorValue "TypeError" "boom"))
        dummyEvent =
      { statusCode := 500, body := "Error" } ∧
    createDeaHandler (fun _ => Except.error Thrown.nonErrorValue) dummyEvent =
      { statusCode := 500, body := "Error" } :=
  ⟨(C9_boundary_error_mapping
      (fun _ => Except.error (Thrown.errorValue "NotFoundError" "Resource Not Found"))
      dummyEvent).2.1 "NotFoundError" "Resource Not Found"
      (fun message => { statusCode := 404, body := message }) rfl rfl,
   (C9_boundary_error_mapping
      (fun _ => Except.error (Thrown.errorValue "TypeError" "boom")) dummyEvent).2.2.1
      "TypeError" "boom" rfl rfl,
   (C9_boundary_error_mapping
      (fun _ => Except.error Thrown.nonErrorValue) dummyEvent).2.2.2.1 rfl⟩

/-- C10: after a successful deleteCase neither the case record nor any
case-user membership of that case remains in the store, and deleteCase is
exactly the composition that first deletes the case record and then every
case-user association of that case. -/
theorem C10_delete_case_no_orphan_memberships (caseUlid : String) (st : CaseStore) :
    (deleteCase caseUlid st).cases.all (fun c => c.ulid != caseUlid) = true ∧
    (deleteCase caseUlid st).caseUsers.all (fun m => m.caseUlid != caseUlid) = true ∧
    deleteCase caseUlid st =
      deleteCaseUsersForCase caseUlid (casePersistenceDeleteCase caseUlid st) := by
  refine ⟨?_, ?_, rfl⟩
  · rw [List.all_eq_true]
    intro c hc
    have hmem : c ∈ st.cases.filter (fun c => c.ulid != caseUlid) := hc
    exact (List.mem_filter.mp hmem).2
  · rw [List.all_eq_true]
    intro m hm
    have hmem : m ∈ st.caseUsers.filter (fun m => m.caseUlid != caseUlid) := hm
    exact (List.mem_filter.mp hmem).2

end Dea
